import Mathlib

set_option maxRecDepth 16384

/-!
Verification development for the Inspire_Food browser dashboard
(src/static/dashbaord.js, src/static/script.js, src/unnamed/part_000).

The JavaScript is single-threaded and event-driven.  Each handler runs
synchronously up to its first `await`; the continuation after an `await`
runs later as a separate event.  We embed every handler as a pure
function from an explicit application state to a new state together with
the user-visible notifications it emits and the network requests it
issues.  Pure DOM mutations (class toggles, innerText of layout nodes,
button captions, focus) carry no information the claims mention and are
noted in the doc comments where they are elided.
-/

/-- Notification categories of `showNotification(message, type)`
(src/static/dashbaord.js lines 317-333, src/unnamed/part_000 lines 446-462). -/
inductive NotifType
  | success
  | error
  | warning
  | info
deriving DecidableEq, Repr

/-- A toast produced by `showNotification` (or a browser `alert`, for the
landing page script, which carries no type). -/
structure Notif where
  message : String
  ntype : NotifType
deriving DecidableEq, Repr

/-- A scan result object as consumed by the rendering code:
`{produce_name, notes, shelf_life_days, is_expired, is_expiring_soon, scanned_at}`.
`scanned_at` is only ever used through `new Date(..).toLocaleDateString()` and
`toLocaleTimeString()`; we model those two locale-dependent renderings as the
opaque strings `scanned_at_date` and `scanned_at_time`. -/
structure ScanResult where
  produce_name : String
  notes : String
  shelf_life_days : Nat
  is_expired : Bool
  is_expiring_soon : Bool
  scanned_at_date : String
  scanned_at_time : String
deriving DecidableEq, Repr

/-- Batch summary `{total_scanned, expiring_soon_count, expired_count, healthy_count}`
(used only to fill DOM counters). -/
structure Summary where
  total_scanned : Nat
  expiring_soon_count : Nat
  expired_count : Nat
  healthy_count : Nat
deriving DecidableEq, Repr

/-- Parsed JSON body of a `/api/scan/start-session` response:
`{success, session_id}` or `{success:false, error}`. -/
inductive SessionResp
  | success (session_id : String)
  | failure (error : String)
deriving DecidableEq, Repr

/-- Parsed JSON body of a `/api/scan/single` response. -/
inductive ScanSingleResp
  | success (data : ScanResult)
  | failure (error : String)
deriving DecidableEq, Repr

/-- Parsed JSON body of a `/api/scan/batch` response. -/
inductive ScanBatchResp
  | success (scans : List ScanResult) (summary : Summary)
  | failure (error : String)
deriving DecidableEq, Repr

/-- Parsed JSON body of a `/api/scan/storage-tips` response. -/
inductive TipsResp
  | success (produce : String) (recommendations : String)
  | failure (error : String)
deriving DecidableEq, Repr

/-- Parsed JSON body of a `/api/scan/recent` response. -/
inductive RecentResp
  | success (scans : List ScanResult)
  | failure (error : String)
deriving DecidableEq, Repr

/-- Outcome of one `fetch` in src/static/script.js as the handler observes it:
`ok` (2xx, parsed body), `notOk` (non-2xx, with the `error` field of the JSON
body the handler reads), or `thrown` (transport error caught by `catch`). -/
inductive HttpOutcome (α : Type)
  | ok (data : α)
  | notOk (error : String)
  | thrown (msg : String)
deriving DecidableEq, Repr

/-- Successful login body `{user_id, email, username}` (src/static/script.js
lines 143-148 and 166-171). -/
structure LoginData where
  user_id : String
  email : String
  username : String
deriving DecidableEq, Repr

/-- JavaScript falsiness of an optional string variable (`!currentSession`,
`!currentImageBase64`): missing or empty means falsy. -/
def jsFalsy : Option String → Bool
  | none => true
  | some s => s == ""

/-- JavaScript `String.prototype.trim()`: strip leading and trailing
whitespace (implemented over the character list so that it evaluates
inside the kernel). -/
def jsTrim (s : String) : String :=
  String.mk (((s.data.dropWhile Char.isWhitespace).reverse.dropWhile Char.isWhitespace).reverse)

/-- Helper for `jsSplitLines`: `acc` holds the current line reversed. -/
def jsSplitLinesGo : List Char → List Char → List String
  | [], acc => [String.mk acc.reverse]
  | c :: cs, acc =>
      if c = '\n' then String.mk acc.reverse :: jsSplitLinesGo cs []
      else jsSplitLinesGo cs (c :: acc)

/-- JavaScript `str.split('\n')`: the list of chunks between newline
characters (one empty chunk for the empty string, as in JS). -/
def jsSplitLines (s : String) : List String :=
  jsSplitLinesGo s.data []

namespace Render

/-- Character-level escaping performed by `escapeHtml`
(src/static/dashbaord.js lines 335-339, src/unnamed/part_000 lines 464-468).
The function sets `div.textContent = text` and reads back `div.innerHTML`;
the browser's text-node serialization replaces `&`, `<` and `>` by entities
and leaves every other character (including quotes) unchanged. -/
def escChar (c : Char) : List Char :=
  if c = '&' then "&amp;".data
  else if c = '<' then "&lt;".data
  else if c = '>' then "&gt;".data
  else [c]

/-- Escape a character list, character by character. -/
def escapeList : List Char → List Char
  | [] => []
  | c :: cs => escChar c ++ escapeList cs

/-- `escapeHtml(text)` from src/static/dashbaord.js lines 335-339 and
src/unnamed/part_000 lines 464-468 (identical in both files). -/
def escapeHtml (s : String) : String :=
  String.mk (escapeList s.data)

/-- Number of raw `<` characters in a character list. -/
def countLt : List Char → Nat
  | [] => 0
  | c :: cs => (if c = '<' then 1 else 0) + countLt cs

/-- Number of raw `<` characters in a string: each one can open a tag when the
string is assigned to `innerHTML`. -/
def ltCount (s : String) : Nat := countLt s.data

/-- `statusColor` from `createResultCard` (src/static/dashbaord.js line 173,
src/unnamed/part_000 line 305):
`result.is_expired ? 'red' : result.is_expiring_soon ? 'orange' : 'green'`. -/
def statusColor (r : ScanResult) : String :=
  if r.is_expired then "red" else if r.is_expiring_soon then "orange" else "green"

/-- `statusBg` from `createResultCard` (src/static/dashbaord.js lines 174-175,
src/unnamed/part_000 lines 306-307). -/
def statusBg (r : ScanResult) : String :=
  if statusColor r = "red" then "bg-red-500/10"
  else if statusColor r = "orange" then "bg-orange-500/10"
  else "bg-green-500/10"

/-- `statusText` from `createResultCard` (src/static/dashbaord.js lines 176-177,
src/unnamed/part_000 lines 308-309). -/
def statusText (r : ScanResult) : String :=
  if statusColor r = "red" then "text-red-400"
  else if statusColor r = "orange" then "text-orange-400"
  else "text-green-400"

/-- `statusLabel` from `createResultCard` (src/static/dashbaord.js lines 178-179,
src/unnamed/part_000 lines 310-311):
`result.is_expired ? 'EXPIRED' : result.is_expiring_soon ? 'EXPIRING SOON' : 'FRESH'`. -/
def statusLabel (r : ScanResult) : String :=
  if r.is_expired then "EXPIRED" else if r.is_expiring_soon then "EXPIRING SOON" else "FRESH"

/-- The `card.innerHTML` template literal of `createResultCard`
(src/static/dashbaord.js lines 181-207, src/unnamed/part_000 lines 313-339;
identical in both files).  Interpolations in source order: escaped
`produce_name`, escaped `notes`, raw `statusBg`/`statusText`, raw
`statusLabel`, raw `shelf_life_days`, raw locale date and time, and escaped
`produce_name` again inside the `onclick` attribute (single quotes written
as \x27). -/
def createResultCardHtml (r : ScanResult) : String :=
  "\n        <div class=\"flex items-start justify-between mb-4\">\n            <div>\n                <h3 class=\"text-2xl font-900 text-white\">"
  ++ escapeHtml r.produce_name
  ++ "</h3>\n                <p class=\"text-slate-400 text-sm mt-1\">"
  ++ escapeHtml r.notes
  ++ "</p>\n            </div>\n            <span class=\""
  ++ statusBg r ++ " " ++ statusText r
  ++ " px-3 py-1 rounded-full text-xs font-900 uppercase tracking-widest\">\n                "
  ++ statusLabel r
  ++ "\n            </span>\n        </div>\n        <div class=\"grid grid-cols-2 gap-4 mb-6\">\n            <div class=\"bg-white/5 rounded-xl p-4\">\n                <p class=\"text-[10px] font-900 uppercase tracking-widest text-slate-400 mb-2\">Shelf Life</p>\n                <p class=\"text-3xl font-900\">"
  ++ toString r.shelf_life_days
  ++ "</p>\n                <p class=\"text-xs text-slate-500\">days remaining</p>\n            </div>\n            <div class=\"bg-white/5 rounded-xl p-4\">\n                <p class=\"text-[10px] font-900 uppercase tracking-widest text-slate-400 mb-2\">Scanned</p>\n                <p class=\"text-sm text-slate-300\">"
  ++ r.scanned_at_date
  ++ "</p>\n                <p class=\"text-xs text-slate-500\">"
  ++ r.scanned_at_time
  ++ "</p>\n            </div>\n        </div>\n        <button onclick=\"getStorageTips(\x27"
  ++ escapeHtml r.produce_name
  ++ "\x27)\"\n            class=\"w-full bg-emerald-500/10 text-emerald-400 border border-emerald-500/20 px-4 py-3 rounded-xl font-900 text-xs uppercase tracking-widest hover:bg-emerald-500 hover:text-black transition-all\">\n            Storage Tips\n        </button>\n    "

/-- The badge classes of a recent-scan item (src/static/dashbaord.js
lines 256-257, src/unnamed/part_000 lines 388-389). -/
def recentStatusBg (r : ScanResult) : String :=
  if statusColor r = "red" then "bg-red-500/20 text-red-400"
  else if statusColor r = "orange" then "bg-orange-500/20 text-orange-400"
  else "bg-green-500/20 text-green-400"

/-- The badge caption of a recent-scan item (src/static/dashbaord.js line 272,
src/unnamed/part_000 line 404). -/
def recentStatusLabel (r : ScanResult) : String :=
  if statusColor r = "red" then "Expired"
  else if statusColor r = "orange" then "Soon" else "Fresh"

/-- The `item.innerHTML` template literal of a recent-scan entry inside
`loadRecentScans` (src/static/dashbaord.js lines 259-275, src/unnamed/part_000
lines 391-407; identical in both files).  Only `produce_name` is escaped;
dates, shelf-life number, badge classes and caption are interpolated raw. -/
def recentScanItemHtml (r : ScanResult) : String :=
  "\n                    <div>\n                        <p class=\"font-600 text-white\">"
  ++ escapeHtml r.produce_name
  ++ "</p>\n                        <p class=\"text-[10px] text-slate-400 uppercase tracking-widest font-800 mt-1\">\n                            "
  ++ r.scanned_at_date ++ " at " ++ r.scanned_at_time
  ++ "\n                        </p>\n                    </div>\n                    <div class=\"flex items-center gap-3\">\n                        <div class=\"text-right\">\n                            <p class=\"text-2xl font-900\">"
  ++ toString r.shelf_life_days
  ++ "</p>\n                            <p class=\"text-[10px] text-slate-400\">days</p>\n                        </div>\n                        <span class=\""
  ++ recentStatusBg r
  ++ " px-3 py-1 rounded-full text-xs font-900 uppercase tracking-widest\">\n                            "
  ++ recentStatusLabel r
  ++ "\n                        </span>\n                    </div>\n                "

/-- The `thumb.innerHTML` template literal of a batch thumbnail in
`handleBatchImages` (src/unnamed/part_000 lines 190-193; the re-render in
`removeBatchImage`, lines 218-221, uses the same literal).  The image data URI
`e.target.result` and the index are interpolated raw, with no escaping. -/
def batchThumbHtml (img : String) (index : Nat) : String :=
  "\n                <img src=\"" ++ img
  ++ "\" class=\"w-full h-20 object-cover rounded-lg\" />\n                <button onclick=\"removeBatchImage("
  ++ toString index
  ++ ")\" class=\"absolute -top-2 -right-2 bg-red-500 text-white rounded-full w-6 h-6 flex items-center justify-center font-bold text-xs hover:bg-red-600\">✕</button>\n            "

/-- Modelled from the spec: "All interpolated text passes through the escaping
helper."  The batch-thumbnail template as the spec describes it, with the
interpolated data-URI string passed through `escapeHtml`; to be compared with
`batchThumbHtml`, which is what src/unnamed/part_000 lines 190-193 actually do. -/
def batchThumbHtml_specEscaped (img : String) (index : Nat) : String :=
  "\n                <img src=\"" ++ escapeHtml img
  ++ "\" class=\"w-full h-20 object-cover rounded-lg\" />\n                <button onclick=\"removeBatchImage("
  ++ toString index
  ++ ")\" class=\"absolute -top-2 -right-2 bg-red-500 text-white rounded-full w-6 h-6 flex items-center justify-center font-bold text-xs hover:bg-red-600\">✕</button>\n            "

end Render

namespace TextDash

/-!
Model of src/static/dashbaord.js: the text-description dashboard variant.
Module-level mutable state is `currentSession` and `isScanning`
(`currentUser` and `batchMode` never influence a claimed behaviour and are
read/written by code the claims do not touch; they are elided).  The two
text inputs `#produce-description` and `#batch-items` are part of the
observable state because the scan handlers read and clear them.
-/

/-- Mutable state of the text dashboard: the module-level variables
`currentSession` (line 2) and `isScanning` (line 4), plus the values of the
two scan inputs. -/
structure St where
  currentSession : Option String
  isScanning : Bool
  produceDescription : String
  batchItems : String
deriving DecidableEq, Repr

/-- State on page load: no session, not scanning, empty inputs. -/
def initSt : St := ⟨none, false, "", ""⟩

/-- Network requests the text dashboard can issue (method, path and JSON body
fields as in the source). -/
inductive Req
  | startSession
  | scanSingle (produce_description : String) (session_id : String)
  | scanBatch (produce_list : List String) (session_id : String)
  | recent
deriving DecidableEq, Repr

/-- `startNewSession` up to its `await fetch` (src/static/dashbaord.js
lines 30-36): unconditionally POSTs `/api/scan/start-session`. -/
def startNewSessionInvoke (st : St) : St × List Notif × List Req :=
  (st, [], [Req.startSession])

/-- Continuation of `startNewSession` once the response JSON is parsed
(lines 38-45).  On `success` it stores the session id, unhides the session
panel, clears the result containers (DOM) and shows a success toast.  On
`success:false` the `if` has no `else`: nothing at all happens. -/
def startNewSessionResolve (d : SessionResp) (st : St) : St × List Notif :=
  match d with
  | SessionResp.success sid =>
      ({ st with currentSession := some sid }, [⟨"New session started", NotifType.success⟩])
  | SessionResp.failure _ => (st, [])

/-- `catch` branch of `startNewSession` (lines 46-48). -/
def startNewSessionReject (msg : String) (st : St) : St × List Notif :=
  (st, [⟨"Error starting session: " ++ msg, NotifType.error⟩])

/-- `scanSingle` up to its `await fetch` (src/static/dashbaord.js
lines 51-75): guard on `!currentSession`, read and trim
`#produce-description`, guard on the result being empty, set
`isScanning = true`, set the button caption (DOM), POST the payload. -/
def scanSingleInvoke (st : St) : St × List Notif × List Req :=
  if jsFalsy st.currentSession then
    (st, [⟨"Start a session first", NotifType.warning⟩], [])
  else
    let description := jsTrim st.produceDescription
    if description = "" then
      (st, [⟨"Please enter a produce description", NotifType.warning⟩], [])
    else
      ({ st with isScanning := true }, [],
       [Req.scanSingle description (st.currentSession.getD "")])

/-- Continuation of `scanSingle` once the response JSON is parsed
(lines 77-84) together with the `finally` block (lines 87-90): display the
result card (DOM), clear the input and toast on success; error toast with the
server message on `success:false`; `isScanning` reset either way. -/
def scanSingleResolve (d : ScanSingleResp) (st : St) : St × List Notif :=
  match d with
  | ScanSingleResp.success _ =>
      ({ st with produceDescription := "", isScanning := false },
       [⟨"Produce scanned successfully", NotifType.success⟩])
  | ScanSingleResp.failure e =>
      ({ st with isScanning := false }, [⟨"Scan failed: " ++ e, NotifType.error⟩])

/-- `catch` branch of `scanSingle` (lines 85-86) together with the `finally`
block (lines 87-90). -/
def scanSingleReject (msg : String) (st : St) : St × List Notif :=
  ({ st with isScanning := false }, [⟨"Error scanning: " ++ msg, NotifType.error⟩])

/-- The line-splitting of `scanBatch` (line 105):
`itemsText.split('\n').filter(item => item.trim().length > 0)`. -/
def produceListOf (itemsText : String) : List String :=
  (jsSplitLines itemsText).filter (fun item => decide (0 < (jsTrim item).length))

/-- `scanBatch` up to its `await fetch` (src/static/dashbaord.js
lines 93-123): guard on `!currentSession`, read and trim `#batch-items`,
guard on emptiness, split into a produce list, guard on the list being empty,
set `isScanning = true`, POST the payload. -/
def scanBatchInvoke (st : St) : St × List Notif × List Req :=
  if jsFalsy st.currentSession then
    (st, [⟨"Start a session first", NotifType.warning⟩], [])
  else
    let itemsText := jsTrim st.batchItems
    if itemsText = "" then
      (st, [⟨"Please enter at least one produce item", NotifType.warning⟩], [])
    else
      let produceList := produceListOf itemsText
      if produceList.length = 0 then
        (st, [⟨"Please enter at least one produce item", NotifType.warning⟩], [])
      else
        ({ st with isScanning := true }, [],
         [Req.scanBatch produceList (st.currentSession.getD "")])

/-- Continuation of `scanBatch` once the response JSON is parsed
(lines 125-132) together with the `finally` block (lines 135-138). -/
def scanBatchResolve (d : ScanBatchResp) (st : St) : St × List Notif :=
  match d with
  | ScanBatchResp.success scans _ =>
      ({ st with batchItems := "", isScanning := false },
       [⟨"Scanned " ++ toString scans.length ++ " items successfully", NotifType.success⟩])
  | ScanBatchResp.failure e =>
      ({ st with isScanning := false }, [⟨"Batch scan failed: " ++ e, NotifType.error⟩])

/-- `catch` branch of `scanBatch` (lines 133-134) together with the `finally`
block (lines 135-138). -/
def scanBatchReject (msg : String) (st : St) : St × List Notif :=
  ({ st with isScanning := false }, [⟨"Error scanning batch: " ++ msg, NotifType.error⟩])

/-- Continuation of `getStorageTips` (src/static/dashbaord.js lines 222-229):
success fills the tips modal (DOM only); `success:false` shows an error
toast with the server message. -/
def getStorageTipsResolve (d : TipsResp) (st : St) : St × List Notif :=
  match d with
  | TipsResp.success _ _ => (st, [])
  | TipsResp.failure e =>
      (st, [⟨"Could not fetch tips: " ++ e, NotifType.error⟩])

/-- `catch` branch of `getStorageTips` (lines 230-232). -/
def getStorageTipsReject (msg : String) (st : St) : St × List Notif :=
  (st, [⟨"Error fetching tips: " ++ msg, NotifType.error⟩])

/-- Continuation of `loadRecentScans` (src/static/dashbaord.js lines 246-285):
both the populated and the empty/failure branch only rewrite
`#recent-container` (DOM); no notification is ever emitted. -/
def loadRecentScansResolve (_d : RecentResp) (st : St) : St × List Notif :=
  (st, [])

/-- `catch` branch of `loadRecentScans` (lines 286-288): `console.error` only,
no user-visible notification. -/
def loadRecentScansReject (_msg : String) (st : St) : St × List Notif :=
  (st, [])

/-- The 30-second `setInterval` callback (src/static/dashbaord.js
lines 345-349): `if (!isScanning) { loadRecentScans(); }`. -/
def refreshTick (st : St) : St × List Notif × List Req :=
  if st.isScanning then (st, [], []) else (st, [], [Req.recent])

end TextDash

namespace ImgDash

/-!
Model of src/unnamed/part_000: the image-based dashboard variant with
camera capture and batch image upload.

Camera hardware is modelled by `streams`: one entry per stream ever handed
out by `getUserMedia`, holding the live flag of each of its tracks.
`cameraStream` holds the index of the stream currently referenced by the
module-level `cameraStream` variable, if any.  The ghost counters
`singleInFlight` and `batchInFlight` count pending `/api/scan/single` and
`/api/scan/batch` fetches; they are not program variables, only bookkeeping
used to state the concurrency claims.
-/

/-- Mutable state of the image dashboard: the module-level variables of
src/unnamed/part_000 lines 1-7 that the claims touch, the camera-hardware
model and the in-flight ghost counters. -/
structure St where
  currentSession : Option String
  isScanning : Bool
  currentImageBase64 : Option String
  batchImages : List String
  streams : List (List Bool)
  cameraStream : Option Nat
  singleInFlight : Nat
  batchInFlight : Nat
deriving DecidableEq, Repr

/-- State on page load. -/
def initSt : St := ⟨none, false, none, [], [], none, 0, 0⟩

/-- Network requests the image dashboard can issue. -/
inductive Request
  | startSession
  | scanSingleReq (image_data : String) (session_id : String)
  | scanBatchReq (images : List String) (session_id : String)
  | recent
deriving DecidableEq, Repr

/-- `startNewSession` up to its `await fetch` (src/unnamed/part_000
lines 33-39). -/
def startNewSessionInvoke (st : St) : St × List Notif × List Request :=
  (st, [], [Request.startSession])

/-- Continuation of `startNewSession` (lines 41-48): on `success` store the
session id and toast; on `success:false` the `if` has no `else` and nothing
happens. -/
def startNewSessionResolve (d : SessionResp) (st : St) : St × List Notif :=
  match d with
  | SessionResp.success sid =>
      ({ st with currentSession := some sid }, [⟨"New session started", NotifType.success⟩])
  | SessionResp.failure _ => (st, [])

/-- `catch` branch of `startNewSession` (lines 49-51). -/
def startNewSessionReject (msg : String) (st : St) : St × List Notif :=
  (st, [⟨"Error starting session: " ++ msg, NotifType.error⟩])

/-- Stop every track of stream `i`:
`cameraStream.getTracks().forEach(track => track.stop())`. -/
def stopTracksAt (streams : List (List Bool)) (i : Nat) : List (List Bool) :=
  streams.set i ((streams.getD i []).map (fun _ => false))

/-- Continuation of `startCamera` after `getUserMedia` resolves
(src/unnamed/part_000 lines 58-67) with a fresh stream of `numTracks` live
tracks: the module variable `cameraStream` is overwritten with the new
stream — the previous stream, if any, is NOT stopped — the preview is wired
up (DOM) and a toast is shown. -/
def startCameraOk (numTracks : Nat) (st : St) : St × List Notif :=
  ({ st with streams := st.streams ++ [List.replicate numTracks true],
             cameraStream := some st.streams.length },
   [⟨"Camera ready", NotifType.success⟩])

/-- `catch` branch of `startCamera` (lines 68-70). -/
def startCameraFail (msg : String) (st : St) : St × List Notif :=
  (st, [⟨"Camera access denied: " ++ msg, NotifType.error⟩])

/-- `stopCamera` (src/unnamed/part_000 lines 73-81): if a stream is held,
stop each of its tracks and null the reference; the section toggles are
DOM only. -/
def stopCameraFn (st : St) : St :=
  match st.cameraStream with
  | some i => { st with streams := stopTracksAt st.streams i, cameraStream := none }
  | none => st

/-- `capturePhoto` (lines 83-94): rasterize the current frame (DOM/canvas)
and store the data URI; the camera keeps running. -/
def capturePhotoFn (img : String) (st : St) : St :=
  { st with currentImageBase64 := some img }

/-- `reader.onload` continuation of `handleImageUpload` (lines 106-112):
store the data URI, stop the camera, show the preview (DOM), toast. -/
def imageUploadLoaded (img : String) (st : St) : St × List Notif :=
  (stopCameraFn { st with currentImageBase64 := some img },
   [⟨"Image ready to scan", NotifType.success⟩])

/-- `clearImage` (lines 116-123): null the image, reset preview DOM, and
call `stopCamera`. -/
def clearImageFn (st : St) : St :=
  stopCameraFn { st with currentImageBase64 := none }

/-- `handleBatchImages` (src/unnamed/part_000 lines 170-204) with the list of
selected files, each represented by the data URI its `FileReader` eventually
produces, observed after every `reader.onload` has fired.  Fewer than two
files: warning toast and no change to `batchImages`.  Otherwise
`batchImages` is reset and each load appends its data URI (the list is
modelled in completion order), the thumbnails are rebuilt (DOM) and a toast
reports the count. -/
def handleBatchImagesFn (files : List String) (st : St) : St × List Notif :=
  if files.length < 2 then
    (st, [⟨"Please select at least 2 images", NotifType.warning⟩])
  else
    ({ st with batchImages := files },
     [⟨toString files.length ++ " images loaded", NotifType.success⟩])

/-- `removeBatchImage(index)` (src/unnamed/part_000 lines 206-225):
`batchImages.splice(index, 1)` removes the element at `index` (nothing when
out of range), then rebuilds the thumbnail DOM. -/
def removeBatchImageFn (i : Nat) (st : St) : St :=
  { st with batchImages := st.batchImages.eraseIdx i }

/-- `scanSingle` up to its `await fetch` (src/unnamed/part_000 lines 127-150):
guard on `!currentSession`, guard on `!currentImageBase64`, set
`isScanning = true`, set the button caption (DOM), POST the payload. -/
def scanSingleInvoke (st : St) : St × List Notif × List Request :=
  if jsFalsy st.currentSession then
    (st, [⟨"Start a session first", NotifType.warning⟩], [])
  else if jsFalsy st.currentImageBase64 then
    (st, [⟨"Please capture or upload an image", NotifType.warning⟩], [])
  else
    ({ st with isScanning := true }, [],
     [Request.scanSingleReq (st.currentImageBase64.getD "") (st.currentSession.getD "")])

/-- Continuation of `scanSingle` (lines 152-159) with the `finally` block
(lines 162-165): on success display the card (DOM), `clearImage()` (which
also stops the camera) and toast; on `success:false` an error toast;
`isScanning` reset either way. -/
def scanSingleResolve (d : ScanSingleResp) (st : St) : St × List Notif :=
  match d with
  | ScanSingleResp.success _ =>
      ({ clearImageFn st with isScanning := false },
       [⟨"Produce analyzed successfully", NotifType.success⟩])
  | ScanSingleResp.failure e =>
      ({ st with isScanning := false }, [⟨"Scan failed: " ++ e, NotifType.error⟩])

/-- `catch` branch of `scanSingle` (lines 160-161) with the `finally` block
(lines 162-165). -/
def scanSingleReject (msg : String) (st : St) : St × List Notif :=
  ({ st with isScanning := false }, [⟨"Error scanning: " ++ msg, NotifType.error⟩])

/-- `scanBatch` up to its `await fetch` (src/unnamed/part_000 lines 227-250):
guard on `!currentSession`, guard on `batchImages.length === 0`, set
`isScanning = true`, POST the payload. -/
def scanBatchInvoke (st : St) : St × List Notif × List Request :=
  if jsFalsy st.currentSession then
    (st, [⟨"Start a session first", NotifType.warning⟩], [])
  else if st.batchImages.length = 0 then
    (st, [⟨"Please select images to scan", NotifType.warning⟩], [])
  else
    ({ st with isScanning := true }, [],
     [Request.scanBatchReq st.batchImages (st.currentSession.getD "")])

/-- Continuation of `scanBatch` (lines 252-262) with the `finally` block
(lines 265-268): on success display the results (DOM), clear `batchImages`
and its DOM, toast the count; on `success:false` an error toast; `isScanning`
reset either way. -/
def scanBatchResolve (d : ScanBatchResp) (st : St) : St × List Notif :=
  match d with
  | ScanBatchResp.success scans _ =>
      ({ st with batchImages := [], isScanning := false },
       [⟨"Analyzed " ++ toString scans.length ++ " images successfully", NotifType.success⟩])
  | ScanBatchResp.failure e =>
      ({ st with isScanning := false }, [⟨"Batch scan failed: " ++ e, NotifType.error⟩])

/-- `catch` branch of `scanBatch` (lines 263-264) with the `finally` block
(lines 265-268). -/
def scanBatchReject (msg : String) (st : St) : St × List Notif :=
  ({ st with isScanning := false }, [⟨"Error scanning batch: " ++ msg, NotifType.error⟩])

/-- The 30-second `setInterval` callback (src/unnamed/part_000
lines 474-478): `if (!isScanning) { loadRecentScans(); }`. -/
def refreshTick (st : St) : St × List Notif × List Request :=
  if st.isScanning then (st, [], []) else (st, [], [Request.recent])

/-- The `beforeunload` handler (src/unnamed/part_000 lines 481-485): stop the
tracks of the held stream; the `cameraStream` variable itself is not
cleared. -/
def beforeunloadFn (st : St) : St :=
  match st.cameraStream with
  | some i => { st with streams := stopTracksAt st.streams i }
  | none => st

/-- Events of the image dashboard.  Each invocation event runs the
synchronous prefix of its handler (up to the first `await`); each
resolve/reject event runs the continuation of a pending fetch. -/
inductive Ev
  | sessionInvoke
  | sessionResolve (d : SessionResp)
  | sessionReject (msg : String)
  | cameraOk (numTracks : Nat)
  | cameraFail (msg : String)
  | cameraStop
  | photo (img : String)
  | upload (img : String)
  | imageClear
  | batchFiles (files : List String)
  | batchRemove (i : Nat)
  | singleInvoke
  | singleResolve (d : ScanSingleResp)
  | singleReject (msg : String)
  | batchInvoke
  | batchResolve (d : ScanBatchResp)
  | batchReject (msg : String)
  | tick
  | unload
deriving DecidableEq, Repr

/-- One event of the browser event loop.  The ghost in-flight counters grow
by the number of scan requests an invocation issues and shrink when a
pending fetch resolves or rejects; a resolve/reject with no pending fetch
cannot occur in the browser and is a no-op here. -/
def stepEv (st : St) (e : Ev) : St × List Notif × List Request :=
  match e with
  | Ev.sessionInvoke => startNewSessionInvoke st
  | Ev.sessionResolve d =>
      let (s, n) := startNewSessionResolve d st
      (s, n, [])
  | Ev.sessionReject m =>
      let (s, n) := startNewSessionReject m st
      (s, n, [])
  | Ev.cameraOk k =>
      let (s, n) := startCameraOk k st
      (s, n, [])
  | Ev.cameraFail m =>
      let (s, n) := startCameraFail m st
      (s, n, [])
  | Ev.cameraStop => (stopCameraFn st, [], [])
  | Ev.photo img => (capturePhotoFn img st, [], [])
  | Ev.upload img =>
      let (s, n) := imageUploadLoaded img st
      (s, n, [])
  | Ev.imageClear => (clearImageFn st, [], [])
  | Ev.batchFiles fs =>
      let (s, n) := handleBatchImagesFn fs st
      (s, n, [])
  | Ev.batchRemove i => (removeBatchImageFn i st, [], [])
  | Ev.singleInvoke =>
      let (s, n, r) := scanSingleInvoke st
      ({ s with singleInFlight := s.singleInFlight + r.length }, n, r)
  | Ev.singleResolve d =>
      if st.singleInFlight = 0 then (st, [], [])
      else
        let (s, n) := scanSingleResolve d st
        ({ s with singleInFlight := s.singleInFlight - 1 }, n, [])
  | Ev.singleReject m =>
      if st.singleInFlight = 0 then (st, [], [])
      else
        let (s, n) := scanSingleReject m st
        ({ s with singleInFlight := s.singleInFlight - 1 }, n, [])
  | Ev.batchInvoke =>
      let (s, n, r) := scanBatchInvoke st
      ({ s with batchInFlight := s.batchInFlight + r.length }, n, r)
  | Ev.batchResolve d =>
      if st.batchInFlight = 0 then (st, [], [])
      else
        let (s, n) := scanBatchResolve d st
        ({ s with batchInFlight := s.batchInFlight - 1 }, n, [])
  | Ev.batchReject m =>
      if st.batchInFlight = 0 then (st, [], [])
      else
        let (s, n) := scanBatchReject m st
        ({ s with batchInFlight := s.batchInFlight - 1 }, n, [])
  | Ev.tick => refreshTick st
  | Ev.unload => (beforeunloadFn st, [], [])

/-- Run a sequence of event-loop events from a state. -/
def runTrace (st : St) (evs : List Ev) : St :=
  evs.foldl (fun s e => (stepEv s e).1) st

/-- Number of scan submissions currently in flight. -/
def scansInFlight (st : St) : Nat := st.singleInFlight + st.batchInFlight

end ImgDash

namespace Script

/-!
Model of `handleAuth` from src/static/script.js lines 102-187.  The handler
reads the three form fields, validates them, and performs one or two fetches
depending on `isRegistering`; alerts are the only user-visible failure
channel.  Button disabling/captioning and `closeAuth` are DOM only and
elided; `window.location.href = '/dashboard'` is modelled by the final
Boolean.
-/

/-- `handleAuth(e)` as a function of the form state and the observed network
outcomes.  `registerOutcome` is the `/api/auth/register` fetch (used only
when `isRegistering`); `loginOutcome` is the `/api/auth/login` fetch (used
on the sign-in path, and on the registration path for the auto-login after
a 2xx register response).  Returns the alerts raised, the new `currentUser`,
and whether the page navigates to `/dashboard`. -/
def handleAuth (isRegistering : Bool) (email password username : String)
    (registerOutcome : HttpOutcome Unit) (loginOutcome : HttpOutcome LoginData) :
    List String × Option LoginData × Bool :=
  if email = "" ∨ password = "" then
    (["Please fill in all fields"], none, false)
  else if isRegistering then
    if username = "" then
      (["Username is required for registration"], none, false)
    else
      match registerOutcome with
      | HttpOutcome.ok _ =>
          match loginOutcome with
          | HttpOutcome.ok d => ([], some d, true)
          | HttpOutcome.notOk _ => ([], none, false)
          | HttpOutcome.thrown m => (["Error: " ++ m], none, false)
      | HttpOutcome.notOk e => (["Registration failed: " ++ e], none, false)
      | HttpOutcome.thrown m => (["Error: " ++ m], none, false)
  else
    match loginOutcome with
    | HttpOutcome.ok d => ([], some d, true)
    | HttpOutcome.notOk e => (["Sign in failed: " ++ e], none, false)
    | HttpOutcome.thrown m => (["Error: " ++ m], none, false)

end Script

/-! Helper lemmas shared by the claim theorems. -/

/-- Appending strings appends their character lists. -/
theorem strData_append (a b : String) : (a ++ b).data = a.data ++ b.data := by
  cases a
  cases b
  rfl

/-- `countLt` is additive over list append. -/
theorem countLt_append (a b : List Char) :
    Render.countLt (a ++ b) = Render.countLt a + Render.countLt b := by
  induction a with
  | nil => simp [Render.countLt]
  | cons c cs ih => simp [Render.countLt, ih]; omega

/-- `ltCount` is additive over string append. -/
theorem ltCount_append (a b : String) :
    Render.ltCount (a ++ b) = Render.ltCount a + Render.ltCount b := by
  simp [Render.ltCount, strData_append, countLt_append]

/-- The empty string has no raw `<`. -/
theorem ltCount_empty : Render.ltCount "" = 0 := rfl

/-- No escaped character expansion contains a raw `<`. -/
theorem countLt_escChar (c : Char) : Render.countLt (Render.escChar c) = 0 := by
  unfold Render.escChar
  split
  · decide
  · split
    · decide
    · split
      · decide
      · simp [Render.countLt, *]

/-- An escaped character list contains no raw `<`. -/
theorem countLt_escapeList (l : List Char) : Render.countLt (Render.escapeList l) = 0 := by
  induction l with
  | nil => rfl
  | cons c cs ih => simp [Render.escapeList, countLt_append, countLt_escChar, ih]

/-- The output of `escapeHtml` never contains a raw `<`. -/
theorem ltCount_escapeHtml (s : String) : Render.ltCount (Render.escapeHtml s) = 0 := by
  simp [Render.escapeHtml, Render.ltCount, countLt_escapeList]

/-- After stopping the tracks of stream `i`, every track of stream `i` is
dead. -/
theorem stopTracksAt_getD_all (l : List (List Bool)) (i : Nat) :
    ((ImgDash.stopTracksAt l i).getD i []).all (fun b => !b) = true := by
  induction l generalizing i with
  | nil => simp [ImgDash.stopTracksAt]
  | cons x xs ih =>
    cases i with
    | zero => simp [ImgDash.stopTracksAt]
    | succ n => simpa [ImgDash.stopTracksAt] using ih n

/-! Claim theorems. -/

/-- Claim C2: `createResultCard` classifies every result into exactly one of
three status labels with fixed precedence: `is_expired` forces "EXPIRED"
regardless of `is_expiring_soon`; otherwise `is_expiring_soon` forces
"EXPIRING SOON"; otherwise the label is "FRESH". -/
theorem C2_theorem (r : ScanResult) :
    (r.is_expired = true → Render.statusLabel r = "EXPIRED") ∧
    (r.is_expired = false → r.is_expiring_soon = true →
      Render.statusLabel r = "EXPIRING SOON") ∧
    (r.is_expired = false → r.is_expiring_soon = false →
      Render.statusLabel r = "FRESH") := by
  refine ⟨fun h => ?_, fun h1 h2 => ?_, fun h1 h2 => ?_⟩ <;>
    simp_all [Render.statusLabel]

/-- Witness for C2 at the three concrete flag combinations, in particular
`is_expired = true` together with `is_expiring_soon = true`. -/
theorem C2_witness :
    Render.statusLabel ⟨"Banana", "spots", 3, true, true, "d", "t"⟩ = "EXPIRED" ∧
    Render.statusLabel ⟨"Banana", "spots", 3, false, true, "d", "t"⟩ = "EXPIRING SOON" ∧
    Render.statusLabel ⟨"Banana", "spots", 3, false, false, "d", "t"⟩ = "FRESH" :=
  ⟨(C2_theorem _).1 rfl, (C2_theorem _).2.1 rfl rfl, (C2_theorem _).2.2 rfl rfl⟩

/-- Claim C5: calling `scanSingle` or `scanBatch` (either dashboard variant)
with no active session emits exactly the warning toast "Start a session
first", issues no network request, and leaves the state unchanged. -/
theorem C5_theorem :
    (∀ st : TextDash.St, st.currentSession = none →
        TextDash.scanSingleInvoke st =
          (st, [⟨"Start a session first", NotifType.warning⟩], [])) ∧
    (∀ st : TextDash.St, st.currentSession = none →
        TextDash.scanBatchInvoke st =
          (st, [⟨"Start a session first", NotifType.warning⟩], [])) ∧
    (∀ st : ImgDash.St, st.currentSession = none →
        ImgDash.scanSingleInvoke st =
          (st, [⟨"Start a session first", NotifType.warning⟩], [])) ∧
    (∀ st : ImgDash.St, st.currentSession = none →
        ImgDash.scanBatchInvoke st =
          (st, [⟨"Start a session first", NotifType.warning⟩], [])) := by
  refine ⟨?_, ?_, ?_, ?_⟩ <;> intro st h <;>
    simp [TextDash.scanSingleInvoke, TextDash.scanBatchInvoke,
          ImgDash.scanSingleInvoke, ImgDash.scanBatchInvoke, jsFalsy, h]

/-- Witness for C5: concrete sessionless states with non-empty payloads. -/
theorem C5_witness :
    TextDash.scanSingleInvoke ⟨none, false, "apple", ""⟩ =
      (⟨none, false, "apple", ""⟩, [⟨"Start a session first", NotifType.warning⟩], []) ∧
    TextDash.scanBatchInvoke ⟨none, false, "", "apple\npear"⟩ =
      (⟨none, false, "", "apple\npear"⟩, [⟨"Start a session first", NotifType.warning⟩], []) ∧
    ImgDash.scanSingleInvoke ⟨none, false, some "uri", [], [], none, 0, 0⟩ =
      (⟨none, false, some "uri", [], [], none, 0, 0⟩,
       [⟨"Start a session first", NotifType.warning⟩], []) ∧
    ImgDash.scanBatchInvoke ⟨none, false, none, ["u1", "u2"], [], none, 0, 0⟩ =
      (⟨none, false, none, ["u1", "u2"], [], none, 0, 0⟩,
       [⟨"Start a session first", NotifType.warning⟩], []) :=
  ⟨C5_theorem.1 _ rfl, C5_theorem.2.1 _ rfl, C5_theorem.2.2.1 _ rfl, C5_theorem.2.2.2 _ rfl⟩

/-- Claim C6: the 30-second auto-refresh callback (both dashboard variants)
issues no fetch while `isScanning` is set: the tick is a complete no-op. -/
theorem C6_theorem :
    (∀ st : TextDash.St, st.isScanning = true → TextDash.refreshTick st = (st, [], [])) ∧
    (∀ st : ImgDash.St, st.isScanning = true → ImgDash.refreshTick st = (st, [], [])) := by
  constructor <;> intro st h <;> simp [TextDash.refreshTick, ImgDash.refreshTick, h]

/-- Witness for C6: concrete states with a scan in progress. -/
theorem C6_witness :
    TextDash.refreshTick ⟨some "s", true, "", ""⟩ = (⟨some "s", true, "", ""⟩, [], []) ∧
    ImgDash.refreshTick ⟨some "s", true, none, [], [], none, 1, 0⟩ =
      (⟨some "s", true, none, [], [], none, 1, 0⟩, [], []) :=
  ⟨C6_theorem.1 _ rfl, C6_theorem.2 _ rfl⟩

/-- Claim C8: `escapeHtml("<b>")` yields the inert string `&lt;b&gt;`, and in
general the output of `escapeHtml` never contains a raw `<` that could open
a tag when assigned to `innerHTML`. -/
theorem C8_theorem :
    Render.escapeHtml "<b>" = "&lt;b&gt;" ∧
    ∀ s : String, Render.ltCount (Render.escapeHtml s) = 0 :=
  ⟨by decide, ltCount_escapeHtml⟩

/-- Claim C10: every completion path of `scanSingle`/`scanBatch` (both
dashboard variants) — success, server-reported failure, and thrown error —
resets `isScanning` to `false` (the `finally` blocks), so the busy flag
never remains stuck. -/
theorem C10_theorem :
    (∀ (d : ScanSingleResp) (st : TextDash.St),
        (TextDash.scanSingleResolve d st).1.isScanning = false) ∧
    (∀ (m : String) (st : TextDash.St),
        (TextDash.scanSingleReject m st).1.isScanning = false) ∧
    (∀ (d : ScanBatchResp) (st : TextDash.St),
        (TextDash.scanBatchResolve d st).1.isScanning = false) ∧
    (∀ (m : String) (st : TextDash.St),
        (TextDash.scanBatchReject m st).1.isScanning = false) ∧
    (∀ (d : ScanSingleResp) (st : ImgDash.St),
        (ImgDash.scanSingleResolve d st).1.isScanning = false) ∧
    (∀ (m : String) (st : ImgDash.St),
        (ImgDash.scanSingleReject m st).1.isScanning = false) ∧
    (∀ (d : ScanBatchResp) (st : ImgDash.St),
        (ImgDash.scanBatchResolve d st).1.isScanning = false) ∧
    (∀ (m : String) (st : ImgDash.St),
        (ImgDash.scanBatchReject m st).1.isScanning = false) := by
  refine ⟨fun d st => ?_, fun m st => rfl, fun d st => ?_, fun m st => rfl,
         fun d st => ?_, fun m st => rfl, fun d st => ?_, fun m st => rfl⟩ <;>
    cases d <;> rfl

/-- Counterexample to claim C1 as stated.  Neither `scanSingle` nor
`scanBatch` ever reads `isScanning`, so the flag prevents nothing: from the
initial state, after a session starts and a photo is captured, two
consecutive `scanSingle` invocations (two button clicks, the first fetch
still pending) both pass the precondition checks and both issue a POST —
two scan submissions are in flight at the same time, refuting "it is never
the case that two scan submissions are in flight". -/
theorem C1_counterexample :
    ImgDash.scansInFlight (ImgDash.runTrace ImgDash.initSt
      [ImgDash.Ev.sessionInvoke, ImgDash.Ev.sessionResolve (SessionResp.success "s1"),
       ImgDash.Ev.photo "data:image/jpeg;base64,AAAA",
       ImgDash.Ev.singleInvoke, ImgDash.Ev.singleInvoke]) = 2 := by
  decide

/-- Claim C1, amended: `scanSingle`/`scanBatch` (both variants) set the busy
flag when they issue a scan request, but neither checks it, so it does not
prevent a second concurrent submission: whenever the session and payload
preconditions hold — even while `isScanning` is already `true` — the
invocation issues its POST and sets the flag.  The only consumer of the
flag is the periodic refresh (claim C6). -/
theorem C1_amended_theorem :
    (∀ (st : ImgDash.St) (sess img : String),
        st.currentSession = some sess → sess ≠ "" →
        st.currentImageBase64 = some img → img ≠ "" →
        ImgDash.scanSingleInvoke st =
          ({ st with isScanning := true }, [],
           [ImgDash.Request.scanSingleReq img sess])) ∧
    (∀ (st : ImgDash.St) (sess : String),
        st.currentSession = some sess → sess ≠ "" → st.batchImages ≠ [] →
        ImgDash.scanBatchInvoke st =
          ({ st with isScanning := true }, [],
           [ImgDash.Request.scanBatchReq st.batchImages sess])) ∧
    (∀ (st : TextDash.St) (sess : String),
        st.currentSession = some sess → sess ≠ "" →
        jsTrim st.produceDescription ≠ "" →
        TextDash.scanSingleInvoke st =
          ({ st with isScanning := true }, [],
           [TextDash.Req.scanSingle (jsTrim st.produceDescription) sess])) ∧
    (∀ (st : TextDash.St) (sess : String),
        st.currentSession = some sess → sess ≠ "" →
        jsTrim st.batchItems ≠ "" →
        TextDash.produceListOf (jsTrim st.batchItems) ≠ [] →
        TextDash.scanBatchInvoke st =
          ({ st with isScanning := true }, [],
           [TextDash.Req.scanBatch (TextDash.produceListOf (jsTrim st.batchItems)) sess])) := by
  refine ⟨?_, ?_, ?_, ?_⟩
  · intro st sess img h1 h2 h3 h4
    simp [ImgDash.scanSingleInvoke, jsFalsy, h1, h2, h3, h4]
  · intro st sess h1 h2 h3
    simp [ImgDash.scanBatchInvoke, jsFalsy, h1, h2, List.length_eq_zero, h3]
  · intro st sess h1 h2 h3
    simp [TextDash.scanSingleInvoke, jsFalsy, h1, h2, h3]
  · intro st sess h1 h2 h3 h4
    simp [TextDash.scanBatchInvoke, jsFalsy, h1, h2, h3, List.length_eq_zero, h4]

/-- Witness for the amended C1: concrete states whose `isScanning` is already
`true` (one submission pending) in which each invocation still issues its
request. -/
theorem C1_witness :
    ImgDash.scanSingleInvoke ⟨some "s1", true, some "uri", [], [], none, 1, 0⟩ =
      (⟨some "s1", true, some "uri", [], [], none, 1, 0⟩, [],
       [ImgDash.Request.scanSingleReq "uri" "s1"]) ∧
    ImgDash.scanBatchInvoke ⟨some "s1", true, none, ["u1", "u2"], [], none, 0, 1⟩ =
      (⟨some "s1", true, none, ["u1", "u2"], [], none, 0, 1⟩, [],
       [ImgDash.Request.scanBatchReq ["u1", "u2"] "s1"]) ∧
    TextDash.scanSingleInvoke ⟨some "s1", true, " apple ", ""⟩ =
      (⟨some "s1", true, " apple ", ""⟩, [], [TextDash.Req.scanSingle "apple" "s1"]) ∧
    TextDash.scanBatchInvoke ⟨some "s1", true, "", "apple\npear"⟩ =
      (⟨some "s1", true, "", "apple\npear"⟩, [],
       [TextDash.Req.scanBatch ["apple", "pear"] "s1"]) :=
  ⟨C1_amended_theorem.1 _ "s1" "uri" rfl (by decide) rfl (by decide),
   C1_amended_theorem.2.1 _ "s1" rfl (by decide) (by decide),
   C1_amended_theorem.2.2.1 _ "s1" rfl (by decide) (by decide),
   C1_amended_theorem.2.2.2 _ "s1" rfl (by decide) (by decide) (by decide)⟩

/-- Counterexample to claim C3 as stated.  The batch-thumbnail template of
`handleBatchImages` interpolates the data-URI string into `innerHTML` raw,
not through `escapeHtml`: on the input `"<b>"` the produced markup carries
one more raw `<` than the all-escaped form the spec describes — the `<` of
the interpolated string survives, so the interpolation did not pass through
`escapeHtml`. -/
theorem C3_counterexample :
    Render.ltCount (Render.batchThumbHtml "<b>" 0) =
      Render.ltCount (Render.batchThumbHtml_specEscaped "<b>" 0) + 1 := by
  decide

/-- Claim C3, amended: in the result cards and recent-scan items the
user-influenced text (`produce_name`, `notes`) passes through `escapeHtml`
and therefore cannot change the number of raw `<` characters of the
produced markup, but the batch-thumbnail template inserts the image string
raw: every `<` of the image string survives into the markup. -/
theorem C3_amended_theorem :
    (∀ (n1 s1 n2 s2 : String) (shelf : Nat) (e1 e2 : Bool) (d t : String),
        Render.ltCount (Render.createResultCardHtml ⟨n1, s1, shelf, e1, e2, d, t⟩) =
        Render.ltCount (Render.createResultCardHtml ⟨n2, s2, shelf, e1, e2, d, t⟩)) ∧
    (∀ (n1 s1 n2 s2 : String) (shelf : Nat) (e1 e2 : Bool) (d t : String),
        Render.ltCount (Render.recentScanItemHtml ⟨n1, s1, shelf, e1, e2, d, t⟩) =
        Render.ltCount (Render.recentScanItemHtml ⟨n2, s2, shelf, e1, e2, d, t⟩)) ∧
    (∀ (img : String) (index : Nat),
        Render.ltCount (Render.batchThumbHtml img index) =
        Render.ltCount (Render.batchThumbHtml_specEscaped img index) + Render.ltCount img) := by
  refine ⟨?_, ?_, ?_⟩
  · intro n1 s1 n2 s2 shelf e1 e2 d t
    cases e1 <;> cases e2 <;>
      simp [Render.createResultCardHtml, Render.statusBg, Render.statusText,
            Render.statusLabel, Render.statusColor, ltCount_append, ltCount_escapeHtml]
  · intro n1 s1 n2 s2 shelf e1 e2 d t
    cases e1 <;> cases e2 <;>
      simp [Render.recentScanItemHtml, Render.recentStatusBg, Render.recentStatusLabel,
            Render.statusColor, ltCount_append, ltCount_escapeHtml]
  · intro img index
    simp only [Render.batchThumbHtml, Render.batchThumbHtml_specEscaped,
               ltCount_append, ltCount_escapeHtml]
    omega

/-- Counterexample to claim C4 as stated.  When `/api/scan/start-session`
answers `{success:false, error}`, `startNewSession` takes no `else` branch:
the failure produces no notification and no alert — it is silently
dropped. -/
theorem C4_counterexample :
    (TextDash.startNewSessionResolve (SessionResp.failure "Session limit reached")
      TextDash.initSt).2 = [] := rfl

/-- Claim C4, amended: failures of the scan, batch-scan, storage-tips and
session-start calls that reject in transit, and application-level failures
of scan, batch-scan, storage-tips, login and registration, are displayed
verbatim in a notification or alert; but three failure outcomes are
silently dropped: a `success:false` session-start response (both variants),
a failed auto-login immediately after a successful registration, and any
failure of the recent-scans load (console only). -/
theorem C4_amended_theorem :
    (∀ (em pw un err : String) (ro : HttpOutcome Unit), em ≠ "" → pw ≠ "" →
        Script.handleAuth false em pw un ro (HttpOutcome.notOk err) =
          (["Sign in failed: " ++ err], none, false)) ∧
    (∀ (em pw un err : String) (lo : HttpOutcome LoginData),
        em ≠ "" → pw ≠ "" → un ≠ "" →
        Script.handleAuth true em pw un (HttpOutcome.notOk err) lo =
          (["Registration failed: " ++ err], none, false)) ∧
    (∀ (em pw un m : String) (ro : HttpOutcome Unit), em ≠ "" → pw ≠ "" →
        Script.handleAuth false em pw un ro (HttpOutcome.thrown m) =
          (["Error: " ++ m], none, false)) ∧
    (∀ (em pw un err : String), em ≠ "" → pw ≠ "" → un ≠ "" →
        Script.handleAuth true em pw un (HttpOutcome.ok ()) (HttpOutcome.notOk err) =
          ([], none, false)) ∧
    (∀ (e : String) (st : TextDash.St),
        (TextDash.scanSingleResolve (ScanSingleResp.failure e) st).2 =
          [⟨"Scan failed: " ++ e, NotifType.error⟩]) ∧
    (∀ (m : String) (st : TextDash.St),
        (TextDash.scanSingleReject m st).2 =
          [⟨"Error scanning: " ++ m, NotifType.error⟩]) ∧
    (∀ (e : String) (st : TextDash.St),
        (TextDash.scanBatchResolve (ScanBatchResp.failure e) st).2 =
          [⟨"Batch scan failed: " ++ e, NotifType.error⟩]) ∧
    (∀ (m : String) (st : TextDash.St),
        (TextDash.scanBatchReject m st).2 =
          [⟨"Error scanning batch: " ++ m, NotifType.error⟩]) ∧
    (∀ (m : String) (st : TextDash.St),
        (TextDash.startNewSessionReject m st).2 =
          [⟨"Error starting session: " ++ m, NotifType.error⟩]) ∧
    (∀ (e : String) (st : TextDash.St),
        (TextDash.getStorageTipsResolve (TipsResp.failure e) st).2 =
          [⟨"Could not fetch tips: " ++ e, NotifType.error⟩]) ∧
    (∀ (m : String) (st : TextDash.St),
        (TextDash.getStorageTipsReject m st).2 =
          [⟨"Error fetching tips: " ++ m, NotifType.error⟩]) ∧
    (∀ (e : String) (st : ImgDash.St),
        (ImgDash.scanSingleResolve (ScanSingleResp.failure e) st).2 =
          [⟨"Scan failed: " ++ e, NotifType.error⟩]) ∧
    (∀ (m : String) (st : ImgDash.St),
        (ImgDash.scanSingleReject m st).2 =
          [⟨"Error scanning: " ++ m, NotifType.error⟩]) ∧
    (∀ (e : String) (st : ImgDash.St),
        (ImgDash.scanBatchResolve (ScanBatchResp.failure e) st).2 =
          [⟨"Batch scan failed: " ++ e, NotifType.error⟩]) ∧
    (∀ (m : String) (st : ImgDash.St),
        (ImgDash.scanBatchReject m st).2 =
          [⟨"Error scanning batch: " ++ m, NotifType.error⟩]) ∧
    (∀ (m : String) (st : ImgDash.St),
        (ImgDash.startNewSessionReject m st).2 =
          [⟨"Error starting session: " ++ m, NotifType.error⟩]) ∧
    (∀ (e : String) (st : TextDash.St),
        (TextDash.startNewSessionResolve (SessionResp.failure e) st).2 = []) ∧
    (∀ (e : String) (st : ImgDash.St),
        (ImgDash.startNewSessionResolve (SessionResp.failure e) st).2 = []) ∧
    (∀ (m : String) (st : TextDash.St),
        (TextDash.loadRecentScansReject m st).2 = []) := by
  refine ⟨?_, ?_, ?_, ?_, fun e st => rfl, fun m st => rfl, fun e st => rfl,
         fun m st => rfl, fun m st => rfl, fun e st => rfl, fun m st => rfl,
         fun e st => rfl, fun m st => rfl, fun e st => rfl, fun m st => rfl,
         fun m st => rfl, fun e st => rfl, fun e st => rfl, fun m st => rfl⟩
  · intro em pw un err ro h1 h2
    simp [Script.handleAuth, h1, h2]
  · intro em pw un err lo h1 h2 h3
    simp [Script.handleAuth, h1, h2, h3]
  · intro em pw un m ro h1 h2
    simp [Script.handleAuth, h1, h2]
  · intro em pw un err h1 h2 h3
    simp [Script.handleAuth, h1, h2, h3]

/-- Witness for the amended C4 at concrete form contents and server
errors. -/
theorem C4_witness :
    Script.handleAuth false "a@b.com" "pw" "" (HttpOutcome.ok ())
        (HttpOutcome.notOk "Invalid credentials") =
      (["Sign in failed: " ++ "Invalid credentials"], none, false) ∧
    Script.handleAuth true "a@b.com" "pw" "user" (HttpOutcome.notOk "Email taken")
        (HttpOutcome.thrown "unused") =
      (["Registration failed: " ++ "Email taken"], none, false) ∧
    Script.handleAuth false "a@b.com" "pw" "" (HttpOutcome.ok ())
        (HttpOutcome.thrown "NetworkError") =
      (["Error: " ++ "NetworkError"], none, false) ∧
    Script.handleAuth true "a@b.com" "pw" "user" (HttpOutcome.ok ())
        (HttpOutcome.notOk "Invalid credentials") = ([], none, false) :=
  ⟨C4_amended_theorem.1 _ _ _ _ _ (by decide) (by decide),
   C4_amended_theorem.2.1 _ _ _ _ _ (by decide) (by decide) (by decide),
   C4_amended_theorem.2.2.1 _ _ _ _ _ (by decide) (by decide),
   C4_amended_theorem.2.2.2.1 _ _ _ _ (by decide) (by decide) (by decide)⟩

/-- Counterexample to claim C7 as stated.  A selection of one valid file
(`N = 1`) is rejected by the `files.length < 2` guard of
`handleBatchImages`: the batch list keeps length 0 instead of becoming
length 1, and a warning is shown. -/
theorem C7_counterexample :
    (ImgDash.handleBatchImagesFn ["data:image/png;base64,AA"] ImgDash.initSt).1.batchImages.length = 0 ∧
    (ImgDash.handleBatchImagesFn ["data:image/png;base64,AA"] ImgDash.initSt).2 =
      [⟨"Please select at least 2 images", NotifType.warning⟩] :=
  ⟨rfl, rfl⟩

/-- Claim C7, amended: for every selection of `N ≥ 2` valid image files the
batch image list has length `N` after all conversions complete (selections
of fewer than two files are rejected with a warning and leave the list
unchanged); and for every valid index `i`, `removeBatchImage(i)` shrinks
the list by exactly one element, keeping the remaining images in order. -/
theorem C7_amended_theorem :
    (∀ (files : List String) (st : ImgDash.St), 2 ≤ files.length →
        (ImgDash.handleBatchImagesFn files st).1.batchImages.length = files.length) ∧
    (∀ (st : ImgDash.St) (i : Nat), i < st.batchImages.length →
        (ImgDash.removeBatchImageFn i st).batchImages.length = st.batchImages.length - 1 ∧
        (ImgDash.removeBatchImageFn i st).batchImages =
          st.batchImages.take i ++ st.batchImages.drop (i + 1)) := by
  constructor
  · intro files st h
    unfold ImgDash.handleBatchImagesFn
    rw [if_neg (by omega)]
  · intro st i h
    exact ⟨List.length_eraseIdx_of_lt h, List.eraseIdx_eq_take_drop_succ _ _⟩

/-- Witness for the amended C7: three files loaded, then index 1 removed. -/
theorem C7_witness :
    (ImgDash.handleBatchImagesFn ["u1", "u2", "u3"] ImgDash.initSt).1.batchImages.length = 3 ∧
    (ImgDash.removeBatchImageFn 1
        ⟨some "s", false, none, ["u1", "u2", "u3"], [], none, 0, 0⟩).batchImages.length = 2 ∧
    (ImgDash.removeBatchImageFn 1
        ⟨some "s", false, none, ["u1", "u2", "u3"], [], none, 0, 0⟩).batchImages = ["u1", "u3"] := by
  refine ⟨C7_amended_theorem.1 ["u1", "u2", "u3"] _ (by decide), ?_, ?_⟩
  · exact (C7_amended_theorem.2 _ 1 (by decide)).1
  · exact (C7_amended_theorem.2 _ 1 (by decide)).2

/-- Counterexample to claim C9 as stated.  `startCamera` overwrites
`cameraStream` without stopping the stream it replaces: after opening the
camera twice and then running `stopCamera`, the track acquired by the first
`startCamera` is still live (stream 0 reads `[true]`), even though
`stopCamera` has completed and released the variable. -/
theorem C9_counterexample :
    (ImgDash.runTrace ImgDash.initSt
        [ImgDash.Ev.cameraOk 1, ImgDash.Ev.cameraOk 1, ImgDash.Ev.cameraStop]).streams =
      [[true], [false]] ∧
    (ImgDash.runTrace ImgDash.initSt
        [ImgDash.Ev.cameraOk 1, ImgDash.Ev.cameraOk 1, ImgDash.Ev.cameraStop]).cameraStream =
      none :=
  ⟨rfl, rfl⟩

/-- Claim C9, amended: every track of the stream currently referenced by
`cameraStream` is stopped both by `stopCamera` (which also clears the
reference) and by the `beforeunload` handler; tracks of a stream that a
second `startCamera` replaced without an intervening `stopCamera` are not
covered and leak. -/
theorem C9_amended_theorem :
    ∀ (st : ImgDash.St) (i : Nat), st.cameraStream = some i →
      (((ImgDash.stopCameraFn st).streams.getD i []).all (fun b => !b) = true ∧
       (ImgDash.stopCameraFn st).cameraStream = none) ∧
      ((ImgDash.beforeunloadFn st).streams.getD i []).all (fun b => !b) = true := by
  intro st i h
  refine ⟨⟨?_, ?_⟩, ?_⟩
  · simpa [ImgDash.stopCameraFn, h] using stopTracksAt_getD_all st.streams i
  · simp [ImgDash.stopCameraFn, h]
  · simpa [ImgDash.beforeunloadFn, h] using stopTracksAt_getD_all st.streams i

/-- Witness for the amended C9: a state holding a two-track stream. -/
theorem C9_witness :
    (((ImgDash.stopCameraFn ⟨none, false, none, [], [[true, true]], some 0, 0, 0⟩).streams.getD 0 []).all
        (fun b => !b) = true ∧
     (ImgDash.stopCameraFn ⟨none, false, none, [], [[true, true]], some 0, 0, 0⟩).cameraStream = none) ∧
    ((ImgDash.beforeunloadFn ⟨none, false, none, [], [[true, true]], some 0, 0, 0⟩).streams.getD 0 []).all
        (fun b => !b) = true :=
  C9_amended_theorem ⟨none, false, none, [], [[true, true]], some 0, 0, 0⟩ 0 rfl
